import Mathlib

/-!
Shallow embedding of `splread.c` (GM1356 sound-level-meter reader) and
verification of properties of its protocol handling.

Machine integers are modelled as `Nat` (with explicit `% 2^w` where the C
code truncates), 8-byte HID reports as `List Nat` of byte values, and the
HID library calls (`hid_read_timeout`, `hid_enumerate`, `hid_open`,
`clock_gettime`) as explicit oracles supplied to the embedded functions.
-/

namespace Splread

/-! Constants from the top of `splread.c`. -/

def GM1356_SPLMETER_VID : Nat := 0x64bd
def GM1356_SPLMETER_PID : Nat := 0x74e3

def GM1356_FAST_MODE : Nat := 0x40
def GM1356_HOLD_MAX_MODE : Nat := 0x20
def GM1356_MEASURE_DBC : Nat := 0x10

def GM1356_RANGE_30_130_DB : Nat := 0x0
def GM1356_RANGE_30_80_DB : Nat := 0x1
def GM1356_RANGE_50_100_DB : Nat := 0x2
def GM1356_RANGE_60_110_DB : Nat := 0x3
def GM1356_RANGE_80_130_DB : Nat := 0x4

def GM1356_FLAGS_RANGE_MASK : Nat := 0xf

def GM1356_COMMAND_CAPTURE : Nat := 0xb3
def GM1356_COMMAND_CONFIGURE : Nat := 0x56

/-- Error codes, `#define`s `A_OK` .. `A_E_TIMEOUT` in `splread.c`. -/
def A_OK : Int := 0

def A_E_NOTFOUND : Int := -1

def A_E_BADARGS : Int := -2

def A_E_INVAL : Int := -3

def A_E_EMPTY : Int := -4

def A_E_TIMEOUT : Int := -5

/-- Macro `FAILED(_x_)` is `(0 != (_x_))`. -/
def FAILED (x : Int) : Bool := x != 0

/-- The 5-entry range-name table `gm1356_range_str`. -/
def gm1356_range_str : List String :=
  ["30-130", "30-80", "50-100", "60-110", "80-130"]

/-! ## CONFIGURE request construction (`splread_set_config`, lines 278-293)

The C code zero-initialises an 8-byte `command` buffer, sets `command[0]`
to the CONFIGURE opcode and ORs `range`, the fast-mode bit and the
dBC-weighting bit into `command[1]`. -/

/-- Byte 1 of the CONFIGURE report: `command[1] |= range;` then
`|= GM1356_FAST_MODE` when `fast`, then `|= GM1356_MEASURE_DBC` when `dbc`. -/
def config_byte1 (range : Nat) (fast dbc : Bool) : Nat :=
  (range ||| (if fast then GM1356_FAST_MODE else 0)) |||
    (if dbc then GM1356_MEASURE_DBC else 0)

/-- The full 8-byte CONFIGURE report built by `splread_set_config`. -/
def configure_command (range : Nat) (fast dbc : Bool) : List Nat :=
  [GM1356_COMMAND_CONFIGURE, config_byte1 range fast dbc, 0, 0, 0, 0, 0, 0]

/-- Decoding byte 1 back with the same bit masks the encoder used:
range is the low 4 bits, fast is mask `0x40`, dbc is mask `0x10`. -/
def decode_config_byte1 (b : Nat) : Nat × Bool × Bool :=
  (b &&& GM1356_FLAGS_RANGE_MASK, b &&& GM1356_FAST_MODE != 0,
    b &&& GM1356_MEASURE_DBC != 0)

/-- CLAIM C6: for every valid configuration tuple the CONFIGURE report has
byte 0 equal to `0x56`, byte 1 equal to `range OR 0x40 (fast) OR 0x10 (dbc)`
with bytes 2-7 zero, decoding byte 1 with the same masks recovers the tuple,
and `(range = 2, fast = true, dbc = false)` encodes to
`[0x56, 0x42, 0, 0, 0, 0, 0, 0]`. -/
theorem configure_roundtrip (range : Nat) (fast dbc : Bool) (hr : range ≤ 4) :
    configure_command range fast dbc =
      [0x56, range ||| (if fast then 0x40 else 0) ||| (if dbc then 0x10 else 0),
        0, 0, 0, 0, 0, 0] ∧
    decode_config_byte1 (config_byte1 range fast dbc) = (range, fast, dbc) ∧
    configure_command 2 true false = [0x56, 0x42, 0, 0, 0, 0, 0, 0] := by
  interval_cases range <;> cases fast <;> cases dbc <;>
    refine ⟨rfl, by decide, by decide⟩

/-- Witness for `configure_roundtrip` at `(range, fast, dbc) = (2, true, false)`. -/
theorem configure_roundtrip_witness :
    decode_config_byte1 (config_byte1 2 true false) = (2, true, false) :=
  (configure_roundtrip 2 true false (by decide)).2.1

/-! ## MEASURE response decoding (`main`, lines 456-479)

On a successful response `main` computes
`uint16_t deci_db = report[0] << 8 | report[1];`,
`uint8_t flags = report[2], range_v = report[2] & 0xf;` and prints
`(double)deci_db/10.0` as the `measured` JSON field, together with
`range_v > 0x4 ? "UNKNOWN" : gm1356_range_str[range_v]` as the range. -/

/-- Value `deci_db` assigned in `main`: `report[0] << 8 | report[1]` truncated
to `uint16_t`. -/
def measure_deci_db (report : List Nat) : Nat :=
  ((report.getD 0 0) <<< 8 ||| report.getD 1 0) % 65536

/-- The number printed as the `measured` JSON field: `(double)deci_db/10.0`,
modelled exactly over the rationals. -/
def measured_value (report : List Nat) : ℚ :=
  (measure_deci_db report : ℚ) / 10

/-- Modelled from the spec words for comparison (refinement side): `measured`
as the spec describes it, the big-endian u16 of bytes 0 and 1 divided by 100. -/
def spec_measured_db (report : List Nat) : ℚ :=
  (((report.getD 0 0) * 256 + report.getD 1 0 : Nat) : ℚ) / 100

/-- A concrete MEASURE response, the spec example `[0x1F,0x40,0x52,0,...]`. -/
def example_response : List Nat := [0x1F, 0x40, 0x52, 0, 0, 0, 0, 0]

/-- CLAIM C1 counterexample: on the response `[0x1F,0x40,0x52,0,...,0]` the
code emits `8000 / 10 = 800`, not `8000 / 100 = 80`: the emitted `measured`
value is the big-endian u16 divided by 10, not by 100. -/
theorem measured_not_div_100 :
    measured_value example_response ≠ spec_measured_db example_response ∧
    measured_value example_response = 800 ∧
    spec_measured_db example_response = 80 := by
  have h1 : measure_deci_db example_response = 8000 := by decide
  have h2 : ((example_response.getD 0 0) * 256 + example_response.getD 1 0 : Nat)
      = 8000 := by decide
  unfold measured_value spec_measured_db
  rw [h1, h2]
  norm_num

/-- CLAIM C1 (amended): for every response whose first two bytes are byte
values, the emitted `measured` value equals the big-endian u16 formed from
bytes 0 and 1 (byte 0 high-order) divided by 10. -/
theorem measured_eq_be_u16_div_10 (report : List Nat)
    (h0 : report.getD 0 0 < 256) (h1 : report.getD 1 0 < 256) :
    measured_value report =
      (((report.getD 0 0) * 256 + report.getD 1 0 : Nat) : ℚ) / 10 := by
  have h := Nat.mul_add_lt_is_or (i := 8) (b := report.getD 1 0)
    (by omega) (report.getD 0 0)
  have hor : (report.getD 0 0) <<< 8 ||| report.getD 1 0 =
      (report.getD 0 0) * 256 + report.getD 1 0 := by
    rw [Nat.shiftLeft_eq]
    calc report.getD 0 0 * 2 ^ 8 ||| report.getD 1 0
        = 2 ^ 8 * report.getD 0 0 ||| report.getD 1 0 := by rw [Nat.mul_comm]
      _ = 2 ^ 8 * report.getD 0 0 + report.getD 1 0 := h.symm
      _ = report.getD 0 0 * 256 + report.getD 1 0 := by ring
  have hlt : (report.getD 0 0) * 256 + report.getD 1 0 < 65536 := by omega
  unfold measured_value measure_deci_db
  rw [hor, Nat.mod_eq_of_lt hlt]

/-- Witness for `measured_eq_be_u16_div_10` at the concrete response. -/
theorem measured_eq_be_u16_div_10_witness :
    measured_value example_response = 800 := by
  have h := measured_eq_be_u16_div_10 example_response (by decide) (by decide)
  rw [h]; norm_num [example_response]

/-! ## Range-field decoding (`main` lines 457-459 and 476,
`gm1356_range_str` lines 71-77)

`range_v = report[2] & 0xf` and the printed range string is
`range_v > 0x4 ? "UNKNOWN" : gm1356_range_str[range_v]`; the table lookup is
modelled as `List.get?` so an out-of-bounds access would surface as `none`. -/

/-- Value `range_v` assigned in `main`: low 4 bits of the flags byte. -/
def report_range_v (report : List Nat) : Nat :=
  report.getD 2 0 &&& GM1356_FLAGS_RANGE_MASK

/-- The range string printed by `main`; the C array access
`gm1356_range_str[range_v]` becomes a checked lookup returning `none` on an
out-of-bounds index. -/
def report_range_str (report : List Nat) : Option String :=
  if report_range_v report > 0x4 then some "UNKNOWN"
  else gm1356_range_str.get? (report_range_v report)

/-- CLAIM C5: range decoding is total: for every report the low 4 bits of the
flags byte decode to one of the 5 table entries (values 0-4) or to `UNKNOWN`
(values 5-15), and the table lookup never goes out of bounds. -/
theorem range_decode_total (report : List Nat) :
    (report_range_str report).isSome = true ∧
    (report_range_v report ≤ 4 →
      report_range_str report = gm1356_range_str.get? (report_range_v report)) ∧
    (5 ≤ report_range_v report → report_range_str report = some "UNKNOWN") := by
  have h15 : report_range_v report ≤ 15 := Nat.and_le_right
  simp only [report_range_str]
  generalize report_range_v report = v at h15 ⊢
  interval_cases v <;> refine ⟨by decide, by decide, by decide⟩

/-- Witness for `range_decode_total`: the example response (flags `0x52`)
decodes to range `50-100`, and flags `0x5d` decode to `UNKNOWN`. -/
theorem range_decode_total_witness :
    report_range_str example_response = some "50-100" ∧
    report_range_str [0, 0, 0x5d] = some "UNKNOWN" :=
  ⟨((range_decode_total example_response).2.1 (by decide)).trans (by decide),
    (range_decode_total [0, 0, 0x5d]).2.2 (by decide)⟩

/-! ## Clock and receive loop (`get_time_ns` lines 114-120,
`splread_read_resp` lines 226-271)

`get_time_ns` samples `clock_gettime(CLOCK_REALTIME, &ts)`. The receive loop
repeatedly calls `hid_read_timeout`, accumulates bytes, and after each read
compares `get_time_ns() - start_time` (64-bit unsigned subtraction) to
`timeout_ns`. Each `hid_read_timeout` call is an oracle event carrying the
bytes delivered (`none` for a negative return) and the `get_time_ns()` value
sampled right after that read. -/

/-- Clock identifiers relevant to `clock_gettime`. -/
inductive ClockId
  | realtime
  | monotonic
deriving DecidableEq

/-- The clock `get_time_ns` passes to `clock_gettime` (line 118 of
`splread.c`): `CLOCK_REALTIME`. -/
def get_time_ns_clock : ClockId := ClockId.realtime

/-- Unsigned 64-bit subtraction `a - b` as the C expression
`get_time_ns() - start_time` computes it. -/
def sub_u64 (a b : Nat) : Nat :=
  (a % 2 ^ 64 + 2 ^ 64 - b % 2 ^ 64) % 2 ^ 64

/-- The byte count `splread_read_resp` asks of `hid_read_timeout` when
`read_bytes` bytes have been accumulated so far (line 242):
`response_len + 1 - read_bytes`. -/
def read_request_len (response_len read_bytes : Nat) : Nat :=
  response_len + 1 - read_bytes

/-- One `hid_read_timeout` call: the bytes it delivered (`none` models a
negative return) and the `get_time_ns()` sample taken right after it. -/
structure ReadEvent where
  bytes : Option (List Nat)
  now : Nat
deriving DecidableEq

/-- Outcome of `splread_read_resp`: success with the response buffer,
`A_E_INVAL` on a failed read, `A_E_TIMEOUT` on deadline expiry; `pending`
records an exhausted oracle with the loop still running (no C counterpart:
the real loop would keep calling `hid_read_timeout`). -/
inductive RespResult
  | ok (response : List Nat)
  | readFail
  | timeout
  | pending (read_bytes : Nat) (response : List Nat)
deriving DecidableEq

/-- The `while (8 != read_bytes)` loop of `splread_read_resp`: on each
iteration one oracle event is consumed; a negative read returns `readFail`
(`A_E_INVAL`), otherwise the bytes are appended, and if
`get_time_ns() - start_time > timeout_ns` the loop returns `timeout`
(`A_E_TIMEOUT`). -/
def read_resp_loop (timeout_ns start_time : Nat) :
    Nat → List Nat → List ReadEvent → RespResult
  | read_bytes, response, events =>
    if read_bytes = 8 then .ok response
    else
      match events with
      | [] => .pending read_bytes response
      | e :: rest =>
        match e.bytes with
        | none => .readFail
        | some bs =>
          if sub_u64 e.now start_time > timeout_ns then .timeout
          else read_resp_loop timeout_ns start_time
            (read_bytes + bs.length) (response ++ bs) rest

/-- Entry point of `splread_read_resp` with an empty buffer. -/
def splread_read_resp (timeout_ns start_time : Nat)
    (events : List ReadEvent) : RespResult :=
  read_resp_loop timeout_ns start_time 0 [] events

/-- A trace in which a single read delivers all 8 bytes but finishes past
the deadline (read completes at t = 150 ns against a 100 ns budget). -/
def late_full_read_trace : List ReadEvent :=
  [⟨some [1, 2, 3, 4, 5, 6, 7, 8], 150⟩]

/-- CLAIM C2 counterexample: on `late_full_read_trace` all 8 bytes have been
accumulated (read delivered 8 bytes), yet the receive call returns
`A_E_TIMEOUT` instead of the complete report, because the deadline check
runs after the byte-count update and fires even when the report is
complete. -/
theorem timeout_despite_full_report :
    splread_read_resp 100 0 late_full_read_trace = .timeout ∧
    (([1, 2, 3, 4, 5, 6, 7, 8] : List Nat)).length = 8 := by
  decide

/-- CLAIM C2 (amended): a successful return always carries exactly the 8
accumulated bytes and a timeout return carries none, but `Timeout` is
decided by the post-read deadline check, so it can also be returned when the
read that crossed the deadline had just completed the 8th byte; every
timeout return has some read after which the deadline had elapsed. -/
theorem read_resp_ok_or_timeout (timeout_ns start_time : Nat)
    (events : List ReadEvent) (buf : List Nat) (k : Nat) (hk : k = buf.length) :
    (∀ out, read_resp_loop timeout_ns start_time k buf events = .ok out →
      out.length = 8) ∧
    (read_resp_loop timeout_ns start_time k buf events = .timeout →
      ∃ e ∈ events, e.bytes ≠ none ∧ sub_u64 e.now start_time > timeout_ns) := by
  induction events generalizing k buf with
  | nil =>
    constructor
    · intro out hout
      rw [read_resp_loop] at hout
      by_cases h8 : k = 8
      · simp [h8] at hout
        rw [← hout, ← hk, h8]
      · simp [h8] at hout
    · intro hto
      rw [read_resp_loop] at hto
      by_cases h8 : k = 8 <;> simp [h8] at hto
  | cons e rest ih =>
    constructor
    · intro out hout
      rw [read_resp_loop] at hout
      by_cases h8 : k = 8
      · simp [h8] at hout
        subst hout
        omega
      · simp [h8] at hout
        match hb : e.bytes with
        | none => simp [hb] at hout
        | some bs =>
          simp [hb] at hout
          by_cases hdl : sub_u64 e.now start_time > timeout_ns
          · simp [hdl] at hout
          · simp [hdl] at hout
            exact (ih (buf ++ bs) (k + bs.length) (by simp [hk])).1 out hout
    · intro hto
      rw [read_resp_loop] at hto
      by_cases h8 : k = 8
      · simp [h8] at hto
      · simp [h8] at hto
        match hb : e.bytes with
        | none => simp [hb] at hto
        | some bs =>
          simp [hb] at hto
          by_cases hdl : sub_u64 e.now start_time > timeout_ns
          · exact ⟨e, List.mem_cons_self e rest, by simp [hb], hdl⟩
          · obtain ⟨e2, he2, hne, hgt⟩ :=
              ((ih (buf ++ bs) (k + bs.length) (by simp [hk])).2
                (hto (Nat.le_of_not_lt hdl)))
            exact ⟨e2, List.mem_cons_of_mem e he2, hne, hgt⟩

/-- Witness for `read_resp_ok_or_timeout`: a prompt full read succeeds with
all 8 bytes. -/
theorem read_resp_ok_or_timeout_witness :
    (([1, 2, 3, 4, 5, 6, 7, 8] : List Nat)).length = 8 :=
  (read_resp_ok_or_timeout 1000 0 [⟨some [1, 2, 3, 4, 5, 6, 7, 8], 5⟩] [] 0
    rfl).1 [1, 2, 3, 4, 5, 6, 7, 8] (by decide)

/-- CLAIM C3: evaluation at the failing input. With `response_len = 8` (the
value at both call sites, `sizeof` of the 8-byte buffers) and `read_bytes =
0`, the loop asks `hid_read_timeout` for `8 + 1 - 0 = 9` bytes, one more
than the 8-byte report buffer can hold, contradicting the claimed bound of
`8 - read_bytes`. -/
theorem read_request_len_overruns :
    read_request_len 8 0 = 9 ∧ ¬ read_request_len 8 0 ≤ 8 - 0 := by
  decide

/-- CLAIM C7 counterexample: `get_time_ns` samples `CLOCK_REALTIME`, not a
monotonic clock. -/
theorem clock_not_monotonic : get_time_ns_clock ≠ ClockId.monotonic := by
  decide

/-- CLAIM C7 (amended): the deadline is measured with the realtime (wall)
clock, and the elapsed-time check against `start_time + timeout_ns` is
performed right after every underlying read: whenever the loop is not yet
complete and the next read succeeds past the deadline, the call returns
`timeout` immediately, whatever events follow. -/
theorem deadline_checked_after_each_read :
    get_time_ns_clock = ClockId.realtime ∧
    ∀ timeout_ns start_time k buf (e : ReadEvent) rest bs,
      k ≠ 8 → e.bytes = some bs → sub_u64 e.now start_time > timeout_ns →
      read_resp_loop timeout_ns start_time k buf (e :: rest) = .timeout := by
  refine ⟨rfl, ?_⟩
  intro timeout_ns start_time k buf e rest bs h8 hb hdl
  rw [read_resp_loop]
  simp [h8, hb, hdl]

/-- Witness for `deadline_checked_after_each_read` at a concrete late read. -/
theorem deadline_checked_after_each_read_witness :
    read_resp_loop 100 0 0 [] (⟨some [1], 150⟩ :: [⟨some [2], 160⟩]) =
      .timeout :=
  deadline_checked_after_each_read.2 100 0 0 [] ⟨some [1], 150⟩
    [⟨some [2], 160⟩] [1] (by decide) rfl (by decide)

/-! ## Configuration handshake (`splread_set_config`, lines 273-310) and
the measurement loop body (`main`, lines 438-455)

`splread_set_config` checks `range <= 0x4` (`ASSERT_ARG`), builds the
CONFIGURE report, sends it, and performs a single `splread_read_resp` call
with a `500ul * 1000ul * 1000ul` ns budget; on failure of either transport
call it returns `A_E_INVAL`. The results of the two transport calls are
oracles; the list of transport operations performed is returned alongside
the result so the call pattern is visible. -/

/-- One transport operation performed by the driver. -/
inductive TransportOp
  | send (report : List Nat)
  | recv (timeout_ns : Nat)
deriving DecidableEq

/-- The acknowledgement budget: `500ul * 1000ul * 1000ul` nanoseconds. -/
def config_ack_timeout_ns : Nat := 500 * 1000 * 1000

/-- Function `splread_set_config`: returns the C result code together with the
transport operations performed, given the result codes the two transport
calls would return. -/
def splread_set_config (range : Nat) (fast dbc : Bool)
    (send_ret rret : Int) : Int × List TransportOp :=
  if ¬ range ≤ 0x4 then (A_E_BADARGS, [])
  else
    let command := configure_command range fast dbc
    if FAILED send_ret then (A_E_INVAL, [.send command])
    else if FAILED rret then
      (A_E_INVAL, [.send command, .recv config_ack_timeout_ns])
    else (A_OK, [.send command, .recv config_ack_timeout_ns])

/-- What one iteration of the `do { ... } while (running)` loop in `main`
does after sending the capture request and reading the response: abort the
session (`goto done`), retry on the next interval (`continue`), or emit a
measurement. -/
inductive CycleOutcome
  | fatal
  | continueLoop
  | emit
deriving DecidableEq

/-- The error-dispatch of one measurement cycle in `main` (lines 443-455),
given the result codes of `splread_send_req` and `splread_read_resp`. -/
def poll_cycle (send_ret tret : Int) : CycleOutcome :=
  if FAILED send_ret then .fatal
  else if FAILED tret then
    if tret ≠ A_E_TIMEOUT then .fatal else .continueLoop
  else .emit

/-- CLAIM C4: timeout propagation is asymmetric. A configuration
acknowledgement timeout makes `splread_set_config` return the fatal
`A_E_INVAL` after exactly one receive with the fixed 500 ms budget (no
retries), and `FAILED` holds of that result so `main` aborts; a
measurement-cycle timeout makes the loop continue; any other failing
measurement-cycle read result is fatal. -/
theorem timeout_propagation_asymmetric (range : Nat) (fast dbc : Bool)
    (hr : range ≤ 4) :
    splread_set_config range fast dbc A_OK A_E_TIMEOUT =
      (A_E_INVAL, [.send (configure_command range fast dbc),
        .recv (500 * 1000 * 1000)]) ∧
    FAILED A_E_INVAL = true ∧
    poll_cycle A_OK A_E_TIMEOUT = .continueLoop ∧
    (∀ tret : Int, FAILED tret = true → tret ≠ A_E_TIMEOUT →
      poll_cycle A_OK tret = .fatal) := by
  have hs : FAILED A_OK = false := by decide
  have ht : FAILED A_E_TIMEOUT = true := by decide
  refine ⟨?_, by decide, by decide, ?_⟩
  · simp [splread_set_config, hr, hs, ht, config_ack_timeout_ns]
  · intro tret hf hne
    simp [poll_cycle, hs, hf, hne]

/-- Witness for `timeout_propagation_asymmetric` at range 0 (the default),
slow mode, dBC: a failed (non-timeout) read in the polling loop is fatal. -/
theorem timeout_propagation_asymmetric_witness :
    poll_cycle A_OK A_E_INVAL = .fatal :=
  (timeout_propagation_asymmetric 0 false true (by decide)).2.2.2 A_E_INVAL
    (by decide) (by decide)

/-! ## Device discovery (`splread_find_device`, lines 122-202)

`hid_enumerate(vid, pid)` is modelled by the list of matching device
records it returns (empty list models a `NULL` return). The walk over the
linked list keeps `(tgt_vid, tgt_pid, nr_devs)`; a device is counted when
no serial filter is supplied, or when `wcscmp(serial, cur->serial_number)`
is 0. Serial strings are wide-character sequences, modelled as `List Nat`.
`hid_open(tgt_vid, tgt_pid, serial)` is modelled by returning the open
request it would be issued with. -/

/-- A record from the `hid_enumerate` linked list. -/
structure HidDeviceInfo where
  vendor_id : Nat
  product_id : Nat
  serial_number : List Nat
deriving DecidableEq

/-- Outcome of `splread_find_device`: `notFound` is `A_E_NOTFOUND` (empty
enumeration), `ambiguous` is `A_E_INVAL` (more than one candidate), `empty`
is `A_E_EMPTY` (zero candidates after filtering), and `openReq` carries the
arguments the single-candidate path passes to `hid_open`. -/
inductive FindOutcome
  | notFound
  | ambiguous
  | empty
  | openReq (vid pid : Nat) (serial : Option (List Nat))
deriving DecidableEq

/-- The `while (NULL != cur_dev)` walk, carrying
`(tgt_vid, tgt_pid, nr_devs)`. -/
def scan_devices (serial : Option (List Nat)) :
    List HidDeviceInfo → Nat × Nat × Nat → Nat × Nat × Nat
  | [], st => st
  | d :: rest, (tv, tp, n) =>
    match serial with
    | some s =>
      if s = d.serial_number then
        scan_devices serial rest (d.vendor_id, d.product_id, n + 1)
      else scan_devices serial rest (tv, tp, n)
    | none => scan_devices serial rest (d.vendor_id, d.product_id, n + 1)

/-- Function `splread_find_device` over the enumeration result. -/
def splread_find_device (serial : Option (List Nat))
    (devs : List HidDeviceInfo) : FindOutcome :=
  if devs.isEmpty then .notFound
  else
    let st := scan_devices serial devs (0, 0, 0)
    if st.2.2 > 1 then .ambiguous
    else if st.2.2 = 0 then .empty
    else .openReq st.1 st.2.1 serial

/-- Whether a device is counted as a candidate: serial filter absent, or an
exact serial match. -/
def serial_matches (serial : Option (List Nat)) (d : HidDeviceInfo) : Bool :=
  match serial with
  | some s => decide (s = d.serial_number)
  | none => true

/-- The number of candidate devices. -/
def candidate_count (serial : Option (List Nat))
    (devs : List HidDeviceInfo) : Nat :=
  (devs.filter (serial_matches serial)).length

/-- Unfolding `candidate_count` over the head of the device list. -/
theorem candidate_count_cons (serial : Option (List Nat)) (d : HidDeviceInfo)
    (rest : List HidDeviceInfo) :
    candidate_count serial (d :: rest) =
      (if serial_matches serial d = true then 1 else 0) +
        candidate_count serial rest := by
  by_cases hm : serial_matches serial d = true
  · simp [candidate_count, List.filter_cons, hm]
    omega
  · simp [candidate_count, List.filter_cons, hm]

/-- The scan counts exactly the candidates and leaves the identity of the
last candidate in `(tgt_vid, tgt_pid)`; when nothing matches, the incoming
state is returned unchanged. -/
theorem scan_devices_spec (serial : Option (List Nat))
    (devs : List HidDeviceInfo) (st : Nat × Nat × Nat) :
    (scan_devices serial devs st).2.2 = st.2.2 + candidate_count serial devs ∧
    (candidate_count serial devs = 0 → scan_devices serial devs st = st) := by
  induction devs generalizing st with
  | nil => simp [scan_devices, candidate_count]
  | cons d rest ih =>
    obtain ⟨tv, tp, n⟩ := st
    match hs : serial with
    | some s =>
      by_cases hm : s = d.serial_number
      · refine ⟨?_, ?_⟩
        · rw [scan_devices, if_pos hm]
          rw [(ih (d.vendor_id, d.product_id, n + 1)).1]
          simp [candidate_count, serial_matches, List.filter, hm]
          omega
        · intro h0
          exfalso
          simp [candidate_count, serial_matches, List.filter, hm] at h0
      · refine ⟨?_, ?_⟩
        · rw [scan_devices, if_neg hm]
          rw [(ih (tv, tp, n)).1]
          simp [candidate_count, serial_matches, List.filter, hm]
        · intro h0
          rw [scan_devices, if_neg hm]
          refine (ih (tv, tp, n)).2 ?_
          simpa [candidate_count, serial_matches, List.filter, hm] using h0
    | none =>
      refine ⟨?_, ?_⟩
      · rw [scan_devices]
        rw [(ih (d.vendor_id, d.product_id, n + 1)).1]
        simp [candidate_count, serial_matches, List.filter]
        omega
      · intro h0
        exfalso
        simp [candidate_count, serial_matches, List.filter] at h0

/-- When exactly one candidate remains, the scan leaves that candidate in
`(tgt_vid, tgt_pid)`. -/
theorem scan_devices_unique (serial : Option (List Nat))
    (devs : List HidDeviceInfo) (st : Nat × Nat × Nat)
    (h1 : candidate_count serial devs = 1) :
    ∃ d ∈ devs, serial_matches serial d = true ∧
      scan_devices serial devs st = (d.vendor_id, d.product_id, st.2.2 + 1) := by
  induction devs generalizing st with
  | nil => simp [candidate_count] at h1
  | cons d rest ih =>
    obtain ⟨tv, tp, n⟩ := st
    by_cases hm : serial_matches serial d = true
    · have hrest : candidate_count serial rest = 0 := by
        rw [candidate_count_cons, if_pos hm] at h1
        omega
      refine ⟨d, List.mem_cons_self d rest, hm, ?_⟩
      have hstep : scan_devices serial (d :: rest) (tv, tp, n) =
          scan_devices serial rest (d.vendor_id, d.product_id, n + 1) := by
        match hs : serial with
        | some s =>
          have : s = d.serial_number := by
            simpa [serial_matches, hs] using hm
          rw [scan_devices, if_pos this]
        | none => rw [scan_devices]
      rw [hstep, (scan_devices_spec serial rest
        (d.vendor_id, d.product_id, n + 1)).2 hrest]
    · have hrest : candidate_count serial rest = 1 := by
        rw [candidate_count_cons, if_neg hm] at h1
        omega
      have hstep : scan_devices serial (d :: rest) (tv, tp, n) =
          scan_devices serial rest (tv, tp, n) := by
        match hs : serial with
        | some s =>
          have hns : ¬ s = d.serial_number := by
            intro hc
            exact hm (by simp [serial_matches, hs, hc])
          rw [scan_devices, if_neg hns]
        | none =>
          exact absurd (by simp [serial_matches]) hm
      obtain ⟨d2, hd2, hsm, hsc⟩ := ih (tv, tp, n) hrest
      exact ⟨d2, List.mem_cons_of_mem d hd2, hsm, by rw [hstep, hsc]⟩

/-- CLAIM C8: discovery counts only serial-matching devices when a serial
filter is supplied and all enumerated devices otherwise; more than one
candidate fails as ambiguous (`A_E_INVAL`), zero candidates fail with a
not-found result (`A_E_NOTFOUND` for an empty enumeration, `A_E_EMPTY`
otherwise), and exactly one candidate leads to an `hid_open` request for
that candidate identity together with the serial filter. -/
theorem find_device_cases (serial : Option (List Nat))
    (devs : List HidDeviceInfo) :
    (candidate_count serial devs > 1 →
      splread_find_device serial devs = .ambiguous) ∧
    (candidate_count serial devs = 0 →
      splread_find_device serial devs = .notFound ∨
        splread_find_device serial devs = .empty) ∧
    (candidate_count serial devs = 1 →
      ∃ d ∈ devs, serial_matches serial d = true ∧
        splread_find_device serial devs =
          .openReq d.vendor_id d.product_id serial) := by
  match hd : devs with
  | [] =>
    refine ⟨?_, ?_, ?_⟩ <;> intro h <;>
      simp [candidate_count, splread_find_device] at h ⊢
  | d0 :: rest =>
    have hne : ¬ ((d0 :: rest : List HidDeviceInfo)).isEmpty = true := by simp
    have hn : (scan_devices serial (d0 :: rest) (0, 0, 0)).2.2 =
        candidate_count serial (d0 :: rest) := by
      simpa using (scan_devices_spec serial (d0 :: rest) (0, 0, 0)).1
    refine ⟨?_, ?_, ?_⟩ <;> intro h
    · simp only [splread_find_device]
      rw [if_neg hne, if_pos (by omega)]
    · right
      simp only [splread_find_device]
      rw [if_neg hne, if_neg (by omega), if_pos (by omega)]
    · obtain ⟨d, hdm, hsm, hsc⟩ :=
        scan_devices_unique serial (d0 :: rest) (0, 0, 0) h
      refine ⟨d, hdm, hsm, ?_⟩
      simp only [splread_find_device]
      rw [if_neg hne, hsc]
      simp

/-- Witness for `find_device_cases`: two devices, no serial filter, yields
the ambiguous outcome; with a serial filter matching the second device, the
open request targets that device. -/
theorem find_device_cases_witness :
    splread_find_device none
        [⟨0x64bd, 0x74e3, [65]⟩, ⟨0x64bd, 0x74e3, [66]⟩] = .ambiguous ∧
    splread_find_device (some [66])
        [⟨0x64bd, 0x74e3, [65]⟩, ⟨0x64bd, 0x74e3, [66]⟩] =
      .openReq 0x64bd 0x74e3 (some [66]) := by
  constructor
  · exact (find_device_cases none _).1 (by decide)
  · obtain ⟨d, hdm, hsm, hsc⟩ := (find_device_cases (some [66])
      [⟨0x64bd, 0x74e3, [65]⟩, ⟨0x64bd, 0x74e3, [66]⟩]).2.2 (by decide)
    simp only [List.mem_cons, List.not_mem_nil, or_false] at hdm
    rcases hdm with h | h
    · rw [h] at hsm
      exact absurd hsm (by decide)
    · rw [h] at hsc
      exact hsc

/-! ## Command-line parsing (`_parse_args`, lines 354-400) and the call
pattern of `main` (lines 402-436)

The module-level configuration defaults are `fast_mode = false`,
`measure_dbc = true`, `config_range = GM1356_RANGE_30_130_DB`,
`interval_ms = 500`, `config_serial = NULL`. `_parse_args` folds the
`getopt` options over that state; `-h` and an unrecognised `-r` argument
call `exit`, modelled as `none`. `main` then calls
`splread_find_device(&dev, GM1356_SPLMETER_VID, GM1356_SPLMETER_PID, NULL)`
(line 426: the serial argument is the literal `NULL`, not `config_serial`)
and `splread_set_config(dev, config_range, fast_mode, measure_dbc)`. -/

/-- A recognised `getopt` option with its argument. -/
inductive CliOpt
  | interval (ms : Nat)
  | help
  | fast
  | dbc
  | rangeArg (s : String)
  | serialArg (s : List Nat)
deriving DecidableEq

/-- The module-level configuration state of `splread.c`. -/
structure AppConfig where
  fast_mode : Bool
  measure_dbc : Bool
  config_range : Nat
  interval_ms : Nat
  config_serial : Option (List Nat)
deriving DecidableEq

/-- The initial values of the configuration globals (lines 82-95). -/
def default_config : AppConfig :=
  { fast_mode := false, measure_dbc := true,
    config_range := GM1356_RANGE_30_130_DB, interval_ms := 500,
    config_serial := none }

/-- The `_arg_find_range` loop: first index of `gm1356_range_str` whose
entry compares equal to the argument. -/
def find_range_loop (s : String) : Nat → List String → Option Nat
  | _, [] => none
  | i, r :: rest => if r = s then some i else find_range_loop s (i + 1) rest

/-- Function `_arg_find_range` over the 5-entry table. -/
def arg_find_range (s : String) : Option Nat :=
  find_range_loop s 0 gm1356_range_str

/-- The `while (-1 != (a = getopt(...)))` loop of `_parse_args`; `none`
models the `exit` calls (`-h`, unsupported `-r` value). `strtoull` output is
truncated to `uint64_t`. -/
def parse_steps (cfg : AppConfig) : List CliOpt → Option AppConfig
  | [] => some cfg
  | o :: rest =>
    match o with
    | .interval ms => parse_steps { cfg with interval_ms := ms % 2 ^ 64 } rest
    | .help => none
    | .fast => parse_steps { cfg with fast_mode := true } rest
    | .dbc => parse_steps { cfg with measure_dbc := true } rest
    | .rangeArg s =>
      match arg_find_range s with
      | some r => parse_steps { cfg with config_range := r } rest
      | none => none
    | .serialArg s => parse_steps { cfg with config_serial := some s } rest

/-- Function `_parse_args` starting from the global defaults. -/
def parse_args (opts : List CliOpt) : Option AppConfig :=
  parse_steps default_config opts

/-- The device-discovery call `main` makes after parsing (line 426): the
serial argument is the literal `NULL` and nothing of the parsed
configuration is passed. -/
def main_find_device (_cfg : AppConfig) (devs : List HidDeviceInfo) :
    FindOutcome :=
  splread_find_device none devs

/-- The configuration call `main` makes (line 433). -/
def main_set_config (cfg : AppConfig) (send_ret rret : Int) :
    Int × List TransportOp :=
  splread_set_config cfg.config_range cfg.fast_mode cfg.measure_dbc
    send_ret rret

/-- Lemma: `parse_steps` distributes over list append. -/
theorem parse_steps_append (cfg : AppConfig) (l1 l2 : List CliOpt) :
    parse_steps cfg (l1 ++ l2) =
      (parse_steps cfg l1).bind (fun c => parse_steps c l2) := by
  induction l1 generalizing cfg with
  | nil => simp [parse_steps]
  | cons o rest ih =>
    match o with
    | .interval ms => simpa [parse_steps] using ih _
    | .help => simp [parse_steps]
    | .fast => simpa [parse_steps] using ih _
    | .dbc => simpa [parse_steps] using ih _
    | .rangeArg s =>
      match hr : arg_find_range s with
      | some r => simpa [parse_steps, hr] using ih _
      | none => simp [parse_steps, hr]
    | .serialArg s => simpa [parse_steps] using ih _

/-- CLAIM C9: for every successfully parsed command line the discovery call
of `main` uses a null serial filter, even though appending `-S s` to the
same command line really does record `s` in the parsed configuration; in
particular the configured serial never influences the discovery outcome. -/
theorem discovery_ignores_serial (opts : List CliOpt) (cfg : AppConfig)
    (devs : List HidDeviceInfo) (h : parse_args opts = some cfg) :
    main_find_device cfg devs = splread_find_device none devs ∧
    (∀ cfg2 : AppConfig, main_find_device cfg2 devs =
      main_find_device cfg devs) ∧
    (∀ s : List Nat, parse_args (opts ++ [.serialArg s]) =
      some { cfg with config_serial := some s }) := by
  refine ⟨rfl, fun cfg2 => rfl, fun s => ?_⟩
  unfold parse_args at h ⊢
  rw [parse_steps_append, h]
  simp [parse_steps]

/-- Witness for `discovery_ignores_serial`: the empty command line parses to
the defaults and appending `-S "A"` records the serial, unused by
discovery. -/
theorem discovery_ignores_serial_witness :
    parse_args ([] ++ [.serialArg [65]]) =
      some { default_config with config_serial := some [65] } :=
  (discovery_ignores_serial [] default_config [] rfl).2.2 [65]

/-- No parse step ever clears `measure_dbc`: it starts `true` (line 86) and
`-C` (line 380) only assigns `true`. -/
theorem parse_steps_measure_dbc (cfg : AppConfig) (opts : List CliOpt)
    (cfg2 : AppConfig) (hdbc : cfg.measure_dbc = true)
    (h : parse_steps cfg opts = some cfg2) : cfg2.measure_dbc = true := by
  induction opts generalizing cfg with
  | nil =>
    simp [parse_steps] at h
    rw [← h]
    exact hdbc
  | cons o rest ih =>
    match o with
    | .interval ms =>
      exact ih { cfg with interval_ms := ms % 2 ^ 64 } (by simpa using hdbc)
        (by simpa [parse_steps] using h)
    | .help => simp [parse_steps] at h
    | .fast =>
      exact ih { cfg with fast_mode := true } (by simpa using hdbc)
        (by simpa [parse_steps] using h)
    | .dbc =>
      exact ih { cfg with measure_dbc := true } (by simp)
        (by simpa [parse_steps] using h)
    | .rangeArg s =>
      match hr : arg_find_range s with
      | some r =>
        exact ih { cfg with config_range := r } (by simpa using hdbc)
          (by simpa [parse_steps, hr] using h)
      | none => simp [parse_steps, hr] at h
    | .serialArg s =>
      exact ih { cfg with config_serial := some s } (by simpa using hdbc)
        (by simpa [parse_steps] using h)

/-- Bitwise absorption: OR-ing a mask in and AND-ing with the same mask
yields the mask. -/
theorem or_and_mask (x m : Nat) : (x ||| m) &&& m = m := by
  apply Nat.eq_of_testBit_eq
  intro i
  rw [Nat.testBit_and, Nat.testBit_or]
  cases x.testBit i <;> cases m.testBit i <;> rfl

/-- CLAIM C10: every successfully parsed configuration has `measure_dbc =
true`, so the CONFIGURE report `main` has `splread_set_config` build and
send always carries the dBC weighting bit `0x10`: dBA weighting is
unreachable through the command line. -/
theorem dbc_bit_always_set (opts : List CliOpt) (cfg : AppConfig)
    (h : parse_args opts = some cfg) :
    cfg.measure_dbc = true ∧
    (configure_command cfg.config_range cfg.fast_mode cfg.measure_dbc).getD
      1 0 &&& GM1356_MEASURE_DBC = GM1356_MEASURE_DBC := by
  have hdbc : cfg.measure_dbc = true :=
    parse_steps_measure_dbc default_config opts cfg rfl h
  refine ⟨hdbc, ?_⟩
  simp only [configure_command, config_byte1, hdbc, if_true,
    List.getD, List.get?, List.getD_cons_succ, List.getD_cons_zero]
  exact or_and_mask _ GM1356_MEASURE_DBC

/-- Witness for `dbc_bit_always_set`: the command line `-f` (fast mode). -/
theorem dbc_bit_always_set_witness :
    (configure_command
        ({ default_config with fast_mode := true } : AppConfig).config_range
        ({ default_config with fast_mode := true } : AppConfig).fast_mode
        ({ default_config with fast_mode := true } : AppConfig).measure_dbc).getD
      1 0 &&& GM1356_MEASURE_DBC = GM1356_MEASURE_DBC :=
  (dbc_bit_always_set [.fast] { default_config with fast_mode := true }
    (by decide)).2

end Splread
